import Mathlib

/-!
Verification of the connection-arbitration and session-protocol core of the
penput repository (a mobile-to-desktop remote mouse server).

Peers (Rust `SocketAddr`) are modelled as natural numbers; bytes are natural
numbers below 256; time instants (Rust `Instant`) are natural numbers counting
milliseconds, so the Rust `Duration::from_secs(5)` timeout is 5000.
Each definition is a direct translation of the corresponding Rust item.
-/

/-- State of `ConnectionSlot` (src/connection.rs): a mutex-protected
`Option<SocketAddr>`; `none` means the slot is empty. -/
abbrev SlotState := Option Nat

/-- Translation of `ConnectionSlot::try_claim` (src/connection.rs lines 21-28):
if the guard is `some` return `false` and leave it; otherwise record the
address and return `true`. Result is (new slot contents, returned Bool). -/
def ConnectionSlot.try_claim (s : SlotState) (addr : Nat) : SlotState × Bool :=
  match s with
  | some a => (some a, false)
  | none => (some addr, true)

/-- Translation of `ConnectionSlot::release` (src/connection.rs lines 31-34):
unconditionally set the guard to `None`. -/
def ConnectionSlot.release (_ : SlotState) : SlotState :=
  none

/-- Folds `try_claim` over a list of successive claim attempts, returning the
final slot contents and the Bool returned to each caller, in order. -/
def claimSeq : SlotState → List Nat → SlotState × List Bool
  | s, [] => (s, [])
  | s, a :: rest =>
    let p := ConnectionSlot.try_claim s a
    let q := claimSeq p.1 rest
    (q.1, p.2 :: q.2)

/-- Translation of `ApprovalBroker::request_approval` (src/connection.rs lines
56-67). The environment supplies the outcome of the two await points:
`enqueueOk` is whether `self.tx.send(..)` returned `Ok`, and `response` is the
value delivered on the oneshot channel (`none` when the sender was dropped,
which Rust surfaces as `rx.await` returning `Err`, absorbed by
`unwrap_or(false)`). The second component of the result records whether the
queue was interacted with (a send was attempted). -/
def ApprovalBroker.request_approval (autoApprove : Bool) (enqueueOk : Bool)
    (response : Option Bool) : Bool × Bool :=
  if autoApprove then (true, false)
  else if enqueueOk = false then (false, true)
  else (response.getD false, true)

/-- Translation of the `MoveCmd` struct (src/mouse.rs lines 7-13): the latest
pending mouse move. Field types are `u16` in Rust; values are below 65536. -/
structure MoveCmd where
  client_w : Nat
  client_h : Nat
  x : Nat
  y : Nat
  deriving DecidableEq, Repr

/-- Translation of `MouseController::move_absolute` (src/mouse.rs lines
81-97). The mutable state is the `latest` slot shared with the worker thread.
The Bool result is `true` for `Ok(())`; every path in the source returns
`Ok(())`. -/
def MouseController.move_absolute (latest : Option MoveCmd)
    (client_w client_h x y : Nat) : Option MoveCmd × Bool :=
  if client_w = 0 ∨ client_h = 0 then (latest, true)
  else (some ⟨client_w, client_h, x, y⟩, true)

/-- Translation of the x-coordinate computation in the worker thread of
`MouseController::new` (src/mouse.rs lines 61-65):
`let ratio_x = cmd.x as f64 / cmd.client_w as f64;`
`let screen_x = (ratio_x * screen_w) as i32;`
The Rust `as i32` cast truncates toward zero; all quantities are nonnegative,
so truncation is the floor. The `f64` arithmetic is modelled exactly over ℚ;
at every input this development evaluates it on, the `f64` computation is
exact (the ratios are dyadic and the products representable), so the model
and the binary agree there. -/
def MouseController.screenX (cmd : MoveCmd) (screen_w : Nat) : Int :=
  ⌊(cmd.x : ℚ) / (cmd.client_w : ℚ) * (screen_w : ℚ)⌋

/-- Translation of the y-coordinate computation in the worker thread of
`MouseController::new` (src/mouse.rs lines 62-64), as in
`MouseController.screenX`. -/
def MouseController.screenY (cmd : MoveCmd) (screen_h : Nat) : Int :=
  ⌊(cmd.y : ℚ) / (cmd.client_h : ℚ) * (screen_h : ℚ)⌋

/-- Modelled from the spec wording of the coordinate-mapping contract
(spec section 4.3): `screen_x = round((x / client_w) * screen_w)`. Stated
with the Mathlib `round` (nearest integer, halves up), which agrees with the
Rust `f64::round` (halves away from zero) on nonnegative values. This
definition follows the words of the spec and is compared against the
source-derived `MouseController.screenX`. -/
def specScreenX (client_w screen_w x : Nat) : Int :=
  round ((x : ℚ) / (client_w : ℚ) * (screen_w : ℚ))

/-- Modelled from the spec wording for the y axis, as `specScreenX`. -/
def specScreenY (client_h screen_h y : Nat) : Int :=
  round ((y : ℚ) / (client_h : ℚ) * (screen_h : ℚ))

/-! UDP protocol (src/udp.rs). Datagrams are lists of bytes; the first byte is
the message tag. Multi-byte fields are big-endian. -/

/-- Tag of a client HELLO datagram (src/udp.rs line 10). -/
def MSG_HELLO : Nat := 0x01

/-- Tag of a client MOVE datagram (src/udp.rs line 11). -/
def MSG_MOVE : Nat := 0x02

/-- Tag of a client PING datagram (src/udp.rs line 12). -/
def MSG_PING : Nat := 0x03

/-- Tag of a server ACCEPT reply (src/udp.rs line 15). -/
def MSG_ACCEPT : Nat := 0x10

/-- Tag of a server REJECT reply (src/udp.rs line 16). -/
def MSG_REJECT : Nat := 0x11

/-- Tag of a server BUSY reply (src/udp.rs line 17). -/
def MSG_BUSY : Nat := 0x12

/-- Tag of a server PONG reply (src/udp.rs line 18). -/
def MSG_PONG : Nat := 0x13

/-- Translation of `SESSION_TIMEOUT` (src/udp.rs line 20),
`Duration::from_secs(5)`, in milliseconds. -/
def SESSION_TIMEOUT : Nat := 5000

/-- Value of `u16::from_be_bytes([a, b])` for bytes a, b < 256. -/
def u16be (a b : Nat) : Nat := a * 256 + b

/-- Big-endian bytes of a `u16`, as produced by `u16::to_be_bytes`. -/
def be16 (n : Nat) : List Nat := [n / 256 % 256, n % 256]

/-- Translation of the `UdpSession` struct (src/udp.rs lines 29-34). -/
structure UdpSession where
  addr : Nat
  client_w : Nat
  client_h : Nat
  last_seen : Nat
  deriving DecidableEq, Repr

/-- The mutable state of the `serve_udp` loop (src/udp.rs lines 46 and 24):
the local `session: Option<UdpSession>` variable together with the shared
`ConnectionSlot` contents. -/
structure ServerState where
  session : Option UdpSession
  slot : SlotState
  deriving DecidableEq, Repr

/-- Observable outcome of handling one event in the `serve_udp` loop: the new
state, the datagram sent back to the sender (if any), and the arguments of
the `mouse.move_absolute` invocation (if one was made). -/
structure StepOut where
  state : ServerState
  reply : Option (List Nat)
  sinkCall : Option MoveCmd
  deriving DecidableEq, Repr

/-- Translation of the `socket.recv_from` arm of the `serve_udp` select loop
(src/udp.rs lines 50-156). `approve` is the outcome of the
`state.broker.request_approval(addr)` await on the path that consults it;
`screen_w`, `screen_h` are the values returned by `state.mouse.screen_size()`.
A `match` on the byte list replaces the `len == 0` and `len < 5` / `len < 9`
guards of the source: a pattern of the required length is exactly the length
test, and the trailing wildcard allows longer datagrams, as the slices do. -/
def recvStep (approve : Bool) (screen_w screen_h : Nat) (st : ServerState)
    (pkt : List Nat) (addr : Nat) (now : Nat) : StepOut :=
  match pkt with
  | [] => ⟨st, none, none⟩
  | t :: rest =>
    if t = MSG_HELLO then
      match rest with
      | b1 :: b2 :: b3 :: b4 :: _ =>
        let w := u16be b1 b2
        let h := u16be b3 b4
        let accept := MSG_ACCEPT :: (be16 screen_w ++ be16 screen_h)
        match st.session with
        | some s =>
          if s.addr = addr then
            ⟨⟨some { s with client_w := w, client_h := h, last_seen := now },
              st.slot⟩, some accept, none⟩
          else
            ⟨st, some [MSG_BUSY], none⟩
        | none =>
          let p := ConnectionSlot.try_claim st.slot addr
          if p.2 = false then
            ⟨⟨none, p.1⟩, some [MSG_BUSY], none⟩
          else if approve = false then
            ⟨⟨none, ConnectionSlot.release p.1⟩, some [MSG_REJECT], none⟩
          else
            ⟨⟨some ⟨addr, w, h, now⟩, p.1⟩, some accept, none⟩
      | _ => ⟨st, none, none⟩
    else if t = MSG_MOVE then
      match rest with
      | b1 :: b2 :: b3 :: b4 :: _ =>
        match st.session with
        | none => ⟨st, none, none⟩
        | some s =>
          if s.addr ≠ addr then
            ⟨st, none, none⟩
          else
            let x := u16be b1 b2
            let y := u16be b3 b4
            if s.client_w > 0 ∧ s.client_h > 0 then
              ⟨⟨some { s with last_seen := now }, st.slot⟩, none,
                some ⟨s.client_w, s.client_h, x, y⟩⟩
            else
              ⟨⟨some { s with last_seen := now }, st.slot⟩, none, none⟩
      | _ => ⟨st, none, none⟩
    else if t = MSG_PING then
      match rest with
      | b1 :: b2 :: b3 :: b4 :: b5 :: b6 :: b7 :: b8 :: _ =>
        match st.session with
        | none => ⟨st, none, none⟩
        | some s =>
          if s.addr ≠ addr then
            ⟨st, none, none⟩
          else
            ⟨⟨some { s with last_seen := now }, st.slot⟩,
              some [MSG_PONG, b1, b2, b3, b4, b5, b6, b7, b8], none⟩
      | _ => ⟨st, none, none⟩
    else
      ⟨st, none, none⟩

/-- Translation of the `tick.tick()` arm of the `serve_udp` select loop
(src/udp.rs lines 158-165): if a session exists whose elapsed time since
`last_seen` exceeds `SESSION_TIMEOUT`, drop the session and release the slot.
`now` is the current instant; `Instant` is monotone, so `now ≥ last_seen` and
the truncated subtraction agrees with `Instant::elapsed`. -/
def tickStep (st : ServerState) (now : Nat) : ServerState :=
  match st.session with
  | some s =>
    if now - s.last_seen > SESSION_TIMEOUT then
      ⟨none, ConnectionSlot.release st.slot⟩
    else
      st
  | none => st

/-! WebSocket protocol (src/websocket.rs). Inbound frames are modelled after
parsing: the source tries `serde_json::from_str::<InitMsg>` and then
`::<PingMsg>` on text frames, so a text frame is represented by which of
those parses applies. Sends are modelled with an oracle list of Bools giving
the success of each `sender.send` in order (exhausted oracle entries default
to success); the source ignores the result of the two `send_one` calls. -/

/-- Translation of the `ClientCtx` struct (src/websocket.rs lines 23-27);
`Default` gives width = 0, height = 0. -/
structure ClientCtx where
  width : Nat
  height : Nat
  deriving DecidableEq, Repr

/-- One item delivered by `receiver.next()` in the message loop
(src/websocket.rs lines 102-139). `textInit w h` is a text frame parsing as
`InitMsg` with `msg_type == "init"`; `textPing t` is a text frame parsing as
`PingMsg` with `msg_type == "ping"` (and not as an init); `textOther` is any
other text frame; `binaryMsg` is a binary frame with its bytes; `closeMsg`
is `Message::Close`; `otherOk` is any other `Ok` frame; `errMsg` is an
`Err` from the stream. -/
inductive WsEvent where
  | textInit (w h : Nat)
  | textPing (t : Nat)
  | textOther
  | binaryMsg (bytes : List Nat)
  | closeMsg
  | otherOk
  | errMsg
  deriving DecidableEq, Repr

/-- One outbound WebSocket message, after serialization is abstracted:
`text s` is `Message::Text(s)`; `remoteScreen w h` is the
`{"type":"remote_screen",...}` JSON text; `pong t` is the
`{"type":"pong","t":t}` JSON text. -/
inductive WsSent where
  | text (s : String)
  | remoteScreen (w h : Nat)
  | pong (t : Nat)
  deriving DecidableEq, Repr

/-- Pops the next send result from the oracle; an exhausted oracle means the
send succeeded. -/
def takeSend (sends : List Bool) : Bool × List Bool :=
  (sends.headD true, sends.tail)

/-- Translation of the `while let Some(msg) = receiver.next()` loop of
`handle_socket` (src/websocket.rs lines 102-140). Returns the messages whose
send was attempted inside the loop and the `mouse.move_absolute` invocations
made, in order. The loop ends at stream end, on `Close`, on a stream error,
or when a pong send fails. -/
def wsLoop (ctx : ClientCtx) (sends : List Bool) :
    List WsEvent → List WsSent × List MoveCmd
  | [] => ([], [])
  | e :: rest =>
    match e with
    | .textInit w h => wsLoop ⟨w, h⟩ sends rest
    | .textPing t =>
      let p := takeSend sends
      if p.1 = false then
        ([.pong t], [])
      else
        let q := wsLoop ctx p.2 rest
        (.pong t :: q.1, q.2)
    | .textOther => wsLoop ctx sends rest
    | .binaryMsg bytes =>
      match bytes with
      | b0 :: b1 :: b2 :: b3 :: _ =>
        if ctx.width > 0 ∧ ctx.height > 0 then
          let q := wsLoop ctx sends rest
          (q.1, ⟨ctx.width, ctx.height, u16be b0 b1, u16be b2 b3⟩ :: q.2)
        else
          wsLoop ctx sends rest
      | _ => wsLoop ctx sends rest
    | .closeMsg => ([], [])
    | .otherOk => wsLoop ctx sends rest
    | .errMsg => ([], [])

/-- Observable outcome of `handle_socket`: the final `ConnectionSlot`
contents, the outbound messages whose send was attempted in order, whether
`broker.request_approval` was invoked, and the `mouse.move_absolute`
invocations made. -/
structure WsOut where
  slot : SlotState
  sent : List WsSent
  approvalRequested : Bool
  sinkCalls : List MoveCmd
  deriving DecidableEq, Repr

/-- Translation of `handle_socket` (src/websocket.rs lines 68-144).
`slot0` is the `ConnectionSlot` contents on entry, `approve` the outcome of
`broker.request_approval(addr)` on the path that consults it, `sw`/`sh` the
values of `mouse.screen_size()`, `sends` the send-result oracle, and `msgs`
the inbound stream. -/
def handle_socket (slot0 : SlotState) (addr : Nat) (approve : Bool)
    (sw sh : Nat) (sends : List Bool) (msgs : List WsEvent) : WsOut :=
  let p := ConnectionSlot.try_claim slot0 addr
  if p.2 = false then
    ⟨p.1, [.text "Already connected"], false, []⟩
  else if approve = false then
    ⟨ConnectionSlot.release p.1, [.text "rejected"], true, []⟩
  else
    let q1 := takeSend sends
    if q1.1 = false then
      ⟨ConnectionSlot.release p.1, [.text "connected"], true, []⟩
    else
      let q2 := takeSend q1.2
      if q2.1 = false then
        ⟨ConnectionSlot.release p.1,
          [.text "connected", .remoteScreen sw sh], true, []⟩
      else
        let r := wsLoop ⟨0, 0⟩ q2.2 msgs
        ⟨ConnectionSlot.release p.1,
          .text "connected" :: .remoteScreen sw sh :: r.1, true, r.2⟩

/-! Theorems. -/

/-- Helper: once the slot holds an occupant, any sequence of further
`try_claim` attempts leaves it unchanged and every attempt returns false. -/
theorem claimSeq_occupied (p : Nat) (attempts : List Nat) :
    (claimSeq (some p) attempts).1 = some p ∧
    ∀ r ∈ (claimSeq (some p) attempts).2, r = false := by
  induction attempts with
  | nil => simp [claimSeq]
  | cons a rest ih =>
    simpa [claimSeq, ConnectionSlot.try_claim] using ih

/-- C1: after `try_claim(P1)` succeeds on the empty slot, every subsequent
`try_claim` (in particular by any P2 ≠ P1) returns false and leaves the slot
recording P1, until `release`; in general `try_claim(a)` returns true and
records `a` iff the slot was empty, and otherwise returns false with no side
effect. -/
theorem ConnectionSlot.try_claim_exclusive (p1 p2 : Nat) (attempts : List Nat)
    (s : SlotState) (a : Nat) (h : p1 ≠ p2) :
    ConnectionSlot.try_claim none p1 = (some p1, true) ∧
    (claimSeq (some p1) attempts).1 = some p1 ∧
    (∀ r ∈ (claimSeq (some p1) attempts).2, r = false) ∧
    ConnectionSlot.try_claim s a =
      if s = none then (some a, true) else (s, false) := by
  refine ⟨rfl, (claimSeq_occupied p1 attempts).1,
    (claimSeq_occupied p1 attempts).2, ?_⟩
  cases s with
  | none => simp [ConnectionSlot.try_claim]
  | some b => simp [ConnectionSlot.try_claim]

/-- Witness for C1 at concrete inputs. -/
theorem ConnectionSlot.try_claim_exclusive_w :
    (0 : Nat) ≠ 1 ∧
    (ConnectionSlot.try_claim none 0 = (some 0, true) ∧
     (claimSeq (some 0) [1, 1, 2]).1 = some 0 ∧
     (∀ r ∈ (claimSeq (some 0) [1, 1, 2]).2, r = false) ∧
     ConnectionSlot.try_claim (some 5) 1 =
       if (some 5 : SlotState) = none then (some 1, true)
       else (some 5, false)) :=
  ⟨by decide, ConnectionSlot.try_claim_exclusive 0 1 [1, 1, 2] (some 5) 1
    (by decide)⟩

/-- C9: `release` unconditionally clears occupancy, releasing an already
empty slot is a no-op, and a double release equals a single release. -/
theorem ConnectionSlot.release_idempotent (s : SlotState) :
    ConnectionSlot.release s = none ∧
    ConnectionSlot.release (none : SlotState) = none ∧
    ConnectionSlot.release (ConnectionSlot.release s) =
      ConnectionSlot.release s :=
  ⟨rfl, rfl, rfl⟩

/-- C7: `request_approval` resolves false when the enqueue fails and when the
response channel is dropped without a decision, and with auto-approve it
resolves true with no queue interaction (second component false). -/
theorem ApprovalBroker.request_approval_outcomes (enqueueOk : Bool)
    (response : Option Bool) :
    ApprovalBroker.request_approval true enqueueOk response = (true, false) ∧
    ApprovalBroker.request_approval false false response = (false, true) ∧
    ApprovalBroker.request_approval false true none = (false, true) :=
  ⟨rfl, rfl, rfl⟩

/-- C8: `move_absolute` with a zero client dimension leaves the pending-move
slot unchanged and returns `Ok(())`. -/
theorem MouseController.move_absolute_zero_noop (latest : Option MoveCmd)
    (client_w client_h x y : Nat) (h : client_w = 0 ∨ client_h = 0) :
    MouseController.move_absolute latest client_w client_h x y =
      (latest, true) := by
  unfold MouseController.move_absolute
  rw [if_pos h]

/-- Witness for C8 at concrete inputs. -/
theorem MouseController.move_absolute_zero_noop_w :
    ((0 : Nat) = 0 ∨ (7 : Nat) = 0) ∧
    MouseController.move_absolute none 0 7 3 4 = (none, true) :=
  ⟨Or.inl rfl,
    MouseController.move_absolute_zero_noop none 0 7 3 4 (Or.inl rfl)⟩

/-- C3 counterexample: for the move command (client_w = 2, x = 1) on a screen
of width 1919 the worker computes floor(1/2 * 1919) = 959 (the Rust `as i32`
cast truncates), while the spec formula round(1/2 * 1919) gives 960; the two
mappings disagree at this input. The `f64` evaluation is exact here: 1/2 and
959.5 are representable, so the binary also produces 959. -/
theorem screenX_not_round :
    MouseController.screenX ⟨2, 2, 1, 1⟩ 1919 = 959 ∧
    specScreenX 2 1919 1 = 960 ∧
    MouseController.screenX ⟨2, 2, 1, 1⟩ 1919 ≠ specScreenX 2 1919 1 := by
  refine ⟨?_, ?_, ?_⟩
  · unfold MouseController.screenX
    norm_num
  · unfold specScreenX
    norm_num [round_eq]
  · unfold MouseController.screenX specScreenX
    norm_num [round_eq]

/-- C3 amended: the mapping applied for every accepted MOVE is
screen_x = trunc((x / client_w) * screen_w) (truncation toward zero, the
Rust `as i32` cast) and likewise for y, which over the nonnegative inputs
equals Nat division (x * screen_w) / client_w; at the spec inputs the
truncated and rounded mappings agree: with client viewport 1000 by 2000 and
screen 1920 by 1080, (500,1000) maps to (960,540), (0,0) maps to (0,0), and
(1000,2000) maps to (1920,1080). -/
theorem screen_mapping_truncates (cmd : MoveCmd) (sw sh : Nat) :
    MouseController.screenX cmd sw = ((cmd.x * sw) / cmd.client_w : Nat) ∧
    MouseController.screenY cmd sh = ((cmd.y * sh) / cmd.client_h : Nat) ∧
    MouseController.screenX ⟨1000, 2000, 500, 1000⟩ 1920 = 960 ∧
    MouseController.screenY ⟨1000, 2000, 500, 1000⟩ 1080 = 540 ∧
    MouseController.screenX ⟨1000, 2000, 0, 0⟩ 1920 = 0 ∧
    MouseController.screenY ⟨1000, 2000, 0, 0⟩ 1080 = 0 ∧
    MouseController.screenX ⟨1000, 2000, 1000, 2000⟩ 1920 = 1920 ∧
    MouseController.screenY ⟨1000, 2000, 1000, 2000⟩ 1080 = 1080 := by
  have key : ∀ x c s : Nat,
      (⌊(x : ℚ) / (c : ℚ) * (s : ℚ)⌋ : ℤ) = ((x * s) / c : Nat) := by
    intro x c s
    rw [show (x : ℚ) / (c : ℚ) * (s : ℚ) =
        (((x * s : ℕ) : ℤ) : ℚ) / ((c : ℕ) : ℚ) by push_cast; ring]
    rw [Rat.floor_intCast_div_natCast]
    exact_mod_cast (Int.ofNat_ediv (x * s) c).symm
  refine ⟨key cmd.x cmd.client_w sw, key cmd.y cmd.client_h sh,
    ?_, ?_, ?_, ?_, ?_, ?_⟩
  all_goals simp only [MouseController.screenX, MouseController.screenY]
  all_goals norm_num

/-- C2: whenever a session exists and the elapsed time since its last
activity exceeds SESSION_TIMEOUT, the liveness tick destroys the session and
releases the slot, after which `try_claim` succeeds for any peer; a tick at
or below the timeout changes nothing; and no received datagram ever destroys
an existing session, so the sweep is the only session-ending path. -/
theorem udp_session_timeout_sweep (st : ServerState) (s : UdpSession)
    (now p : Nat) (approve : Bool) (sw sh : Nat) (pkt : List Nat)
    (addr now2 : Nat) (h : st.session = some s) :
    (SESSION_TIMEOUT < now - s.last_seen →
      tickStep st now = ⟨none, none⟩ ∧
      ConnectionSlot.try_claim (tickStep st now).slot p = (some p, true)) ∧
    (now - s.last_seen ≤ SESSION_TIMEOUT → tickStep st now = st) ∧
    ((recvStep approve sw sh st pkt addr now2).state.session).isSome = true := by
  refine ⟨?_, ?_, ?_⟩
  · intro hgt
    have ht : tickStep st now = ⟨none, none⟩ := by
      simp [tickStep, h, hgt, ConnectionSlot.release]
    rw [ht]
    exact ⟨rfl, rfl⟩
  · intro hle
    have hngt : ¬ SESSION_TIMEOUT < now - s.last_seen := not_lt.mpr hle
    simp [tickStep, h, hngt]
  · unfold recvStep
    repeat' split
    all_goals simp_all

/-- Witness for C2 at concrete inputs: a session bound to peer 7 with
last_seen 0, slot occupied by 7, swept at instant 6000. -/
theorem udp_session_timeout_sweep_w :
    (ServerState.session ⟨some ⟨7, 100, 200, 0⟩, some 7⟩ =
      some ⟨7, 100, 200, 0⟩) ∧
    ((SESSION_TIMEOUT < 6000 - (⟨7, 100, 200, 0⟩ : UdpSession).last_seen →
      tickStep ⟨some ⟨7, 100, 200, 0⟩, some 7⟩ 6000 = ⟨none, none⟩ ∧
      ConnectionSlot.try_claim
        (tickStep ⟨some ⟨7, 100, 200, 0⟩, some 7⟩ 6000).slot 9 =
        (some 9, true)) ∧
    (6000 - (⟨7, 100, 200, 0⟩ : UdpSession).last_seen ≤ SESSION_TIMEOUT →
      tickStep ⟨some ⟨7, 100, 200, 0⟩, some 7⟩ 6000 =
        ⟨some ⟨7, 100, 200, 0⟩, some 7⟩) ∧
    ((recvStep true 1920 1080 ⟨some ⟨7, 100, 200, 0⟩, some 7⟩
        [3] 7 0).state.session).isSome = true) :=
  ⟨rfl, udp_session_timeout_sweep ⟨some ⟨7, 100, 200, 0⟩, some 7⟩
    ⟨7, 100, 200, 0⟩ 6000 9 true 1920 1080 [3] 7 0 rfl⟩

/-- C4: a well-formed HELLO from a peer different from the bound one is
answered BUSY and changes nothing: the session (every field) and the slot are
left as they were, and no pointer-sink call is made. -/
theorem udp_hello_other_peer_busy (st : ServerState) (s : UdpSession)
    (b1 b2 b3 b4 : Nat) (tl : List Nat) (q now : Nat) (approve : Bool)
    (sw sh : Nat) (hs : st.session = some s) (hq : s.addr ≠ q) :
    recvStep approve sw sh st (MSG_HELLO :: b1 :: b2 :: b3 :: b4 :: tl)
      q now = ⟨st, some [MSG_BUSY], none⟩ := by
  simp [recvStep, hs, hq]

/-- Witness for C4 at concrete inputs: session bound to 7, HELLO from 9. -/
theorem udp_hello_other_peer_busy_w :
    (ServerState.session ⟨some ⟨7, 100, 200, 0⟩, some 7⟩ =
      some ⟨7, 100, 200, 0⟩) ∧
    ((⟨7, 100, 200, 0⟩ : UdpSession).addr ≠ 9) ∧
    recvStep true 1920 1080 ⟨some ⟨7, 100, 200, 0⟩, some 7⟩
      (MSG_HELLO :: 0 :: 100 :: 0 :: 200 :: []) 9 1 =
      ⟨⟨some ⟨7, 100, 200, 0⟩, some 7⟩, some [MSG_BUSY], none⟩ :=
  ⟨rfl, by decide,
    udp_hello_other_peer_busy ⟨some ⟨7, 100, 200, 0⟩, some 7⟩
      ⟨7, 100, 200, 0⟩ 0 100 0 200 [] 9 1 true 1920 1080 rfl (by decide)⟩

/-- C6: a MOVE or PING datagram (of any length) arriving while no session
exists, or from a source address other than the bound one, produces no
reply, no state change, and no pointer-sink call. -/
theorem udp_unbound_ignored (st : ServerState) (pkt : List Nat) (t : Nat)
    (addr now : Nat) (approve : Bool) (sw sh : Nat)
    (ht : pkt.head? = some t) (htag : t = MSG_MOVE ∨ t = MSG_PING)
    (hun : st.session = none ∨ ∃ s, st.session = some s ∧ s.addr ≠ addr) :
    recvStep approve sw sh st pkt addr now = ⟨st, none, none⟩ := by
  rcases pkt with _ | ⟨t0, rest⟩
  · simp at ht
  · have ht0 : t0 = t := by simpa using ht
    subst ht0
    rcases rest with _ | ⟨b1, _ | ⟨b2, _ | ⟨b3, _ | ⟨b4, _ | ⟨b5, _ |
      ⟨b6, _ | ⟨b7, _ | ⟨b8, r⟩⟩⟩⟩⟩⟩⟩⟩ <;>
      rcases htag with h2 | h2 <;>
      rcases hun with hn | ⟨s, hs, hne⟩ <;>
      simp_all [recvStep, MSG_HELLO, MSG_MOVE, MSG_PING]

/-- Witness for C6 at concrete inputs: a full MOVE while no session exists. -/
theorem udp_unbound_ignored_w :
    (([MSG_MOVE, 0, 1, 0, 1] : List Nat).head? = some MSG_MOVE) ∧
    (MSG_MOVE = MSG_MOVE ∨ MSG_MOVE = MSG_PING) ∧
    (ServerState.session ⟨none, none⟩ = none ∨
      ∃ s, ServerState.session ⟨none, none⟩ = some s ∧ s.addr ≠ 4) ∧
    recvStep true 1920 1080 ⟨none, none⟩ [MSG_MOVE, 0, 1, 0, 1] 4 9 =
      ⟨⟨none, none⟩, none, none⟩ :=
  ⟨rfl, Or.inl rfl, Or.inl rfl,
    udp_unbound_ignored ⟨none, none⟩ [MSG_MOVE, 0, 1, 0, 1] MSG_MOVE 4 9
      true 1920 1080 rfl (Or.inl rfl) (Or.inl rfl)⟩

/-- C10: a well-formed MOVE from the bound peer whose recorded client width
or height is zero refreshes last_seen (the refresh precedes the dimension
check) with no reply and no pointer-sink call, and a later tick within the
timeout leaves the refreshed session alive. -/
theorem udp_move_refreshes_before_dim_check (st : ServerState)
    (s : UdpSession) (b1 b2 b3 b4 : Nat) (tl : List Nat) (now now2 : Nat)
    (approve : Bool) (sw sh : Nat) (hs : st.session = some s)
    (hdim : s.client_w = 0 ∨ s.client_h = 0) :
    recvStep approve sw sh st (MSG_MOVE :: b1 :: b2 :: b3 :: b4 :: tl)
      s.addr now =
      ⟨⟨some { s with last_seen := now }, st.slot⟩, none, none⟩ ∧
    (now2 - now ≤ SESSION_TIMEOUT →
      tickStep ⟨some { s with last_seen := now }, st.slot⟩ now2 =
        ⟨some { s with last_seen := now }, st.slot⟩) := by
  constructor
  · have hnd : ¬ (s.client_w > 0 ∧ s.client_h > 0) := by
      rcases hdim with h0 | h0 <;> simp [h0]
    simp [recvStep, hs, hnd, MSG_MOVE, MSG_HELLO]
  · intro hle
    have hngt : ¬ SESSION_TIMEOUT < now2 - now := not_lt.mpr hle
    simp [tickStep, hngt]

/-- Witness for C10 at concrete inputs: bound peer 7 with client_w = 0. -/
theorem udp_move_refreshes_before_dim_check_w :
    (ServerState.session ⟨some ⟨7, 0, 200, 0⟩, some 7⟩ =
      some ⟨7, 0, 200, 0⟩) ∧
    ((⟨7, 0, 200, 0⟩ : UdpSession).client_w = 0 ∨
      (⟨7, 0, 200, 0⟩ : UdpSession).client_h = 0) ∧
    (recvStep true 1920 1080 ⟨some ⟨7, 0, 200, 0⟩, some 7⟩
      (MSG_MOVE :: 0 :: 5 :: 0 :: 5 :: []) (⟨7, 0, 200, 0⟩ : UdpSession).addr
      50 = ⟨⟨some ⟨7, 0, 200, 50⟩, some 7⟩, none, none⟩ ∧
    (3000 - 50 ≤ SESSION_TIMEOUT →
      tickStep ⟨some ⟨7, 0, 200, 50⟩, some 7⟩ 3000 =
        ⟨some ⟨7, 0, 200, 50⟩, some 7⟩)) :=
  ⟨rfl, Or.inl rfl,
    udp_move_refreshes_before_dim_check ⟨some ⟨7, 0, 200, 0⟩, some 7⟩
      ⟨7, 0, 200, 0⟩ 0 5 0 5 [] 50 3000 true 1920 1080 rfl (Or.inl rfl)⟩

/-- C5: if the claim fails the handler sends "Already connected" and returns
without requesting approval and without touching the slot; if the claim
succeeds and approval is denied it sends "rejected", releases, and returns;
and whenever the claim succeeded (the slot was empty on entry) the handler
leaves the slot released on return, whatever the stream delivered. -/
theorem ws_slot_released (slot0 : SlotState) (addr q : Nat) (approve : Bool)
    (sw sh : Nat) (sends : List Bool) (msgs : List WsEvent) :
    (slot0 = some q →
      handle_socket slot0 addr approve sw sh sends msgs =
        ⟨slot0, [.text "Already connected"], false, []⟩) ∧
    (slot0 = none → approve = false →
      handle_socket slot0 addr approve sw sh sends msgs =
        ⟨none, [.text "rejected"], true, []⟩) ∧
    (slot0 = none →
      (handle_socket slot0 addr approve sw sh sends msgs).slot = none) := by
  refine ⟨?_, ?_, ?_⟩
  · intro hq
    subst hq
    simp [handle_socket, ConnectionSlot.try_claim]
  · intro h0 hap
    subst h0
    subst hap
    simp [handle_socket, ConnectionSlot.try_claim, ConnectionSlot.release]
  · intro h0
    subst h0
    simp only [handle_socket, ConnectionSlot.try_claim,
      ConnectionSlot.release]
    split_ifs <;> first | rfl | simp_all

/-- Witness for C5 at concrete inputs: empty slot, approval denied. -/
theorem ws_slot_released_w :
    ((none : SlotState) = some 0 →
      handle_socket none 4 false 1 2 [] [] =
        ⟨none, [.text "Already connected"], false, []⟩) ∧
    ((none : SlotState) = none → false = false →
      handle_socket none 4 false 1 2 [] [] =
        ⟨none, [.text "rejected"], true, []⟩) ∧
    ((none : SlotState) = none →
      (handle_socket none 4 false 1 2 [] []).slot = none) :=
  ws_slot_released none 4 0 false 1 2 [] []
